import Mathlib

/-
  Verification of the paygent-sdk-go client library (client.go).

  The embedding is shallow and executable:
  - Go float64 cost arithmetic is embedded as exact rational arithmetic (ℚ);
    Go ints are ℤ, token counts produced by the tokenizer are ℕ.
  - The tiktoken encoding backend is an abstract parameter (EncodingBackend):
    theorems quantify over every possible backend.
  - The HTTP transport collaborator is an abstract parameter mapping the
    outbound request to either a connection-level failure or a response with a
    status code and body.
  - Process-wide state (the pricing table global and the logger level) is
    threaded explicitly as a ProcState value; every operation returns the
    state it leaves behind, mirroring the writes the Go code performs.
  - Logging calls are side-effect free diagnostics and are not modelled.
-/

namespace Paygent

/-- Pricing information for a model: cost per 1000 tokens, in USD, for
prompt tokens and for completion tokens (client.go, type ModelPricing). -/
structure ModelPricing where
  promptTokensCost : ℚ
  completionTokensCost : ℚ
deriving DecidableEq

/-- Count-based usage input (client.go, type UsageData). -/
structure UsageData where
  serviceProvider : String
  model : String
  promptTokens : ℤ
  completionTokens : ℤ
  totalTokens : ℤ
deriving DecidableEq

/-- Text-based usage input (client.go, type UsageDataWithStrings). -/
structure UsageDataWithStrings where
  serviceProvider : String
  model : String
  promptString : String
  outputString : String
deriving DecidableEq

/-- Outbound record posted to the billing API (client.go, type APIRequest). -/
structure APIRequest where
  agentID : String
  customerID : String
  indicator : String
  amount : ℚ
  inputToken : ℤ
  outputToken : ℤ
  model : String
  serviceProvider : String
deriving DecidableEq

/-- Modelled from the spec: the model-identifier constants used as the keys of
the pricing table (GPT5, Sonnet45, and the rest) are declared in a repository
file that is absent from src; their string values here follow the README list
of supported models, extended by the constant-naming scheme for entries the
README elides. The entries and their prices are transcribed from the
modelPricing map of client.go lines 60-488, in source order; the per-provider
sections mirror the comment sections of the source map. OpenAI models: -/
def openAIPricing : List (String × ModelPricing) := [
  ("gpt-5", ⟨0.00125, 0.01⟩),
  ("gpt-5-mini", ⟨0.00025, 0.002⟩),
  ("gpt-5-nano", ⟨0.00005, 0.0004⟩),
  ("gpt-5-chat-latest", ⟨0.00125, 0.01⟩),
  ("gpt-5-codex", ⟨0.00125, 0.01⟩),
  ("gpt-5-pro", ⟨0.015, 0.12⟩),
  ("gpt-5-search-api", ⟨0.00125, 0.01⟩),
  ("gpt-4.1", ⟨0.002, 0.008⟩),
  ("gpt-4.1-mini", ⟨0.0004, 0.0016⟩),
  ("gpt-4.1-nano", ⟨0.0001, 0.0004⟩),
  ("gpt-4o", ⟨0.0025, 0.01⟩),
  ("gpt-4o-2024-05-13", ⟨0.005, 0.015⟩),
  ("gpt-4o-mini", ⟨0.00015, 0.0006⟩),
  ("gpt-realtime", ⟨0.004, 0.016⟩),
  ("gpt-realtime-mini", ⟨0.0006, 0.0024⟩),
  ("gpt-4o-realtime-preview", ⟨0.005, 0.02⟩),
  ("gpt-4o-mini-realtime-preview", ⟨0.0006, 0.0024⟩),
  ("gpt-audio", ⟨0.0025, 0.01⟩),
  ("gpt-audio-mini", ⟨0.0006, 0.0024⟩),
  ("gpt-4o-audio-preview", ⟨0.0025, 0.01⟩),
  ("gpt-4o-mini-audio-preview", ⟨0.00015, 0.0006⟩),
  ("o1", ⟨0.015, 0.06⟩),
  ("o1-pro", ⟨0.15, 0.6⟩),
  ("o3-pro", ⟨0.02, 0.08⟩),
  ("o3", ⟨0.002, 0.008⟩),
  ("o3-deep-research", ⟨0.01, 0.04⟩),
  ("o4-mini", ⟨0.0011, 0.0044⟩),
  ("o4-mini-deep-research", ⟨0.002, 0.008⟩),
  ("o3-mini", ⟨0.0011, 0.0044⟩),
  ("o1-mini", ⟨0.0011, 0.0044⟩),
  ("codex-mini-latest", ⟨0.0015, 0.006⟩),
  ("gpt-4o-mini-search-preview", ⟨0.00015, 0.0006⟩),
  ("gpt-4o-search-preview", ⟨0.0025, 0.01⟩),
  ("computer-use-preview", ⟨0.003, 0.012⟩),
  ("chatgpt-4o-latest", ⟨0.005, 0.015⟩),
  ("gpt-4-turbo-2024-04-09", ⟨0.01, 0.03⟩),
  ("gpt-4-0125-preview", ⟨0.01, 0.03⟩),
  ("gpt-4-1106-preview", ⟨0.01, 0.03⟩),
  ("gpt-4-1106-vision-preview", ⟨0.01, 0.03⟩),
  ("gpt-4-0613", ⟨0.03, 0.06⟩),
  ("gpt-4-0314", ⟨0.03, 0.06⟩),
  ("gpt-4-32k", ⟨0.06, 0.12⟩),
  ("gpt-3.5-turbo", ⟨0.0005, 0.0015⟩),
  ("gpt-3.5-turbo-0125", ⟨0.0005, 0.0015⟩),
  ("gpt-3.5-turbo-1106", ⟨0.001, 0.002⟩),
  ("gpt-3.5-turbo-0613", ⟨0.0015, 0.002⟩),
  ("gpt-3.5-turbo-0301", ⟨0.0015, 0.002⟩),
  ("gpt-3.5-turbo-instruct", ⟨0.0015, 0.002⟩),
  ("gpt-3.5-turbo-16k-0613", ⟨0.003, 0.004⟩),
  ("davinci-002", ⟨0.002, 0.002⟩),
  ("babbage-002", ⟨0.0004, 0.0004⟩)]

/-- Anthropic models of the source table. -/
def anthropicPricing : List (String × ModelPricing) := [
  ("sonnet-4.5", ⟨0.003, 0.015⟩),
  ("haiku-4.5", ⟨0.001, 0.005⟩),
  ("opus-4.1", ⟨0.015, 0.075⟩),
  ("sonnet-4", ⟨0.003, 0.015⟩),
  ("opus-4", ⟨0.015, 0.075⟩),
  ("sonnet-3.7", ⟨0.003, 0.015⟩),
  ("haiku-3.5", ⟨0.0008, 0.004⟩),
  ("opus-3", ⟨0.015, 0.075⟩),
  ("haiku-3", ⟨0.00025, 0.00125⟩)]

/-- Google DeepMind models of the source table. -/
def googlePricing : List (String × ModelPricing) := [
  ("gemini-2.5-pro", ⟨0.00125, 0.01⟩),
  ("gemini-2.5-flash", ⟨0.00015, 0.0006⟩),
  ("gemini-2.5-flash-preview", ⟨0.3, 2.5⟩),
  ("gemini-2.5-flash-lite", ⟨0.0001, 0.0004⟩),
  ("gemini-2.5-flash-lite-preview", ⟨0.0001, 0.0004⟩),
  ("gemini-2.5-flash-native-audio", ⟨0.0005, 0.002⟩),
  ("gemini-2.5-flash-image", ⟨0.0003, 0.03⟩),
  ("gemini-2.5-flash-preview-tts", ⟨0.0005, 0.01⟩),
  ("gemini-2.5-pro-preview-tts", ⟨0.001, 0.02⟩),
  ("gemini-2.5-computer-use-preview", ⟨0.00125, 0.01⟩)]

/-- Meta models of the source table. -/
def metaPricing : List (String × ModelPricing) := [
  ("llama-4-maverick", ⟨0.00027, 0.00085⟩),
  ("llama-4-scout", ⟨0.00018, 0.00059⟩),
  ("llama-3.3-70b-instruct-turbo", ⟨0.00088, 0.00088⟩),
  ("llama-3.2-3b-instruct-turbo", ⟨0.00006, 0.00006⟩),
  ("llama-3.1-405b-instruct-turbo", ⟨0.0035, 0.0035⟩),
  ("llama-3.1-70b-instruct-turbo", ⟨0.00088, 0.00088⟩),
  ("llama-3.1-8b-instruct-turbo", ⟨0.00018, 0.00018⟩),
  ("llama-3-70b-instruct-turbo", ⟨0.00088, 0.00088⟩),
  ("llama-3-70b-instruct-reference", ⟨0.00088, 0.00088⟩),
  ("llama-3-8b-instruct-lite", ⟨0.0001, 0.0001⟩),
  ("llama-2", ⟨0.0009, 0.0009⟩),
  ("llama-guard-4-12b", ⟨0.0002, 0.0002⟩),
  ("llama-guard-3-11b-vision-turbo", ⟨0.00018, 0.00018⟩),
  ("llama-guard-3-8b", ⟨0.0002, 0.0002⟩),
  ("llama-guard-2-8b", ⟨0.0002, 0.0002⟩),
  ("salesforce-llama-rank-v1-8b", ⟨0.0001, 0.0001⟩)]

/-- AWS models of the source table. -/
def awsPricing : List (String × ModelPricing) := [
  ("amazon-nova-micro", ⟨0.035, 0.14⟩),
  ("amazon-nova-lite", ⟨0.06, 0.24⟩),
  ("amazon-nova-pro", ⟨0.8, 3.2⟩)]

/-- Mistral AI models of the source table. -/
def mistralPricing : List (String × ModelPricing) := [
  ("mistral-7b-instruct", ⟨0.028, 0.054⟩),
  ("mistral-large", ⟨2.0, 6.0⟩),
  ("mistral-small", ⟨0.2, 0.6⟩),
  ("mistral-medium", ⟨0.4, 2.0⟩)]

/-- Cohere models of the source table. -/
def coherePricing : List (String × ModelPricing) := [
  ("command-r7b", ⟨0.0000375, 0.00015⟩),
  ("command-r", ⟨0.00015, 0.0006⟩),
  ("command-r-plus", ⟨0.0025, 0.01⟩),
  ("command-a", ⟨0.001, 0.002⟩),
  ("aya-expanse-8b-32b", ⟨0.0005, 0.0015⟩)]

/-- DeepSeek models of the source table. -/
def deepseekPricing : List (String × ModelPricing) := [
  ("deepseek-chat", ⟨0.00007, 0.00027⟩),
  ("deepseek-reasoner", ⟨0.00014, 0.00219⟩),
  ("deepseek-r1-global", ⟨0.00135, 0.0054⟩),
  ("deepseek-r1-datazone", ⟨0.001485, 0.00594⟩),
  ("deepseek-v3.2-exp", ⟨0.000028, 0.00042⟩)]

/-- The full pricing table of client.go lines 60-488: the concatenation of
the per-provider sections above, in source order. -/
def modelPricing : List (String × ModelPricing) :=
  openAIPricing ++ anthropicPricing ++ googlePricing ++ metaPricing ++
    awsPricing ++ mistralPricing ++ coherePricing ++ deepseekPricing

/-- Default pricing substituted for models absent from the table
(client.go lines 524-529 and 662-668): 0.10 USD per 1000 tokens for both
prompt and completion tokens. -/
def defaultPricing : ModelPricing := ⟨0.1, 0.1⟩

/-- Process-wide mutable state touched by client operations: the pricing
table global and the logger threshold of the client. Each operation returns
the state it leaves behind. -/
structure ProcState where
  pricing : List (String × ModelPricing)
  logLevel : ℕ

/-- The state at process start: the table of client.go lines 60-488 and the
logrus Info threshold set by NewClient. -/
def initState : ProcState := ⟨modelPricing, 4⟩

/-- Abstract tiktoken backend. EncodingForModel resolves a dedicated encoding
for an exact model identifier; GetEncoding resolves a named encoding such as
cl100k_base. A None result embeds the error return of the Go library, and an
encoding itself is abstracted to the token count it assigns to a text. -/
structure EncodingBackend where
  encodingForModel : String → Option (String → ℕ)
  getEncoding : String → Option (String → ℕ)

/-- Whitespace test of the Go standard library (unicode.IsSpace) on the
Latin-1 range, used by strings.Fields: tab, newline, vertical tab, form
feed, carriage return, space, next-line, and no-break space. -/
def goIsSpace (ch : Char) : Bool :=
  ch = ' ' || ch = '\t' || ch = '\n' || ch = '\x0b' || ch = '\x0c' || ch = '\r' ||
    ch = '\x85' || ch = '\xa0'

/-- Helper counting maximal runs of non-whitespace characters; the flag
records whether the previous character was inside such a run. -/
def wordCountAux : Bool → List Char → ℕ
  | _, [] => 0
  | inWord, ch :: rest =>
    if goIsSpace ch then wordCountAux false rest
    else (if inWord then 0 else 1) + wordCountAux true rest

/-- Number of whitespace-separated words of a text: the length of
strings.Fields(text) used at client.go line 650. -/
def wordCount (text : String) : ℕ := wordCountAux false text.data

/-- Heuristic token estimate used when no encoding applies
(client.go lines 647-657): at least 1 token for non-empty text, otherwise
the word count times 1.3, truncated to an integer. The float64
multiplication of the source is embedded as exact rational arithmetic. -/
def fallbackTokenCount (text : String) : ℕ :=
  let words := wordCount text
  if words = 0 then 1
  else Nat.floor ((words : ℚ) * 1.3)

/-- Lower-cased character list of a model identifier: strings.ToLower at
client.go line 550, embedded for the ASCII range. -/
def lowerChars (s : String) : List Char := s.data.map Char.toLower

/-- Leading-string test against the lower-cased model identifier:
strings.HasPrefix(modelLower, pat) of the source. -/
def hasPrefixCh (modelLower : List Char) (pat : String) : Bool :=
  pat.data.isPrefixOf modelLower

/-- Token count for a model and text (client.go lines 545-644,
func getTokenCount). The branch ladder and its order are the ones of the
source: empty text short-circuits to 0; a gpt- model tries a dedicated
encoding and degrades to cl100k_base and then to the heuristic; each of the
seven other recognized families tries cl100k_base and degrades to the
heuristic; anything else uses the heuristic. -/
def getTokenCount (s : ProcState) (enc : EncodingBackend) (model text : String) :
    ProcState × ℕ :=
  (s,
    if text.data.isEmpty then 0
    else
      let modelLower := lowerChars model
      if hasPrefixCh modelLower "gpt-" then
        match enc.encodingForModel model with
        | some e => e text
        | none =>
          match enc.getEncoding "cl100k_base" with
          | some e => e text
          | none => fallbackTokenCount text
      else if hasPrefixCh modelLower "claude-" then
        match enc.getEncoding "cl100k_base" with
        | some e => e text
        | none => fallbackTokenCount text
      else if hasPrefixCh modelLower "gemini-" then
        match enc.getEncoding "cl100k_base" with
        | some e => e text
        | none => fallbackTokenCount text
      else if hasPrefixCh modelLower "llama" then
        match enc.getEncoding "cl100k_base" with
        | some e => e text
        | none => fallbackTokenCount text
      else if hasPrefixCh modelLower "mistral" then
        match enc.getEncoding "cl100k_base" with
        | some e => e text
        | none => fallbackTokenCount text
      else if hasPrefixCh modelLower "command" then
        match enc.getEncoding "cl100k_base" with
        | some e => e text
        | none => fallbackTokenCount text
      else if hasPrefixCh modelLower "deepseek" then
        match enc.getEncoding "cl100k_base" with
        | some e => e text
        | none => fallbackTokenCount text
      else if hasPrefixCh modelLower "titan-" then
        match enc.getEncoding "cl100k_base" with
        | some e => e text
        | none => fallbackTokenCount text
      else fallbackTokenCount text)

/-- The family buckets the branch ladder of getTokenCount distinguishes. -/
inductive Family where
  | gpt
  | generic
  | unknown
deriving DecidableEq

/-- Family classification of a model identifier, reading off the branch
ladder of getTokenCount in the same order: gpt- models form one bucket;
claude-, gemini-, llama, mistral, command, deepseek and titan- models form
the seven buckets that share the generic cl100k_base treatment; everything
else is unknown. -/
def classify (model : String) : Family :=
  let modelLower := lowerChars model
  if hasPrefixCh modelLower "gpt-" then Family.gpt
  else if hasPrefixCh modelLower "claude-" then Family.generic
  else if hasPrefixCh modelLower "gemini-" then Family.generic
  else if hasPrefixCh modelLower "llama" then Family.generic
  else if hasPrefixCh modelLower "mistral" then Family.generic
  else if hasPrefixCh modelLower "command" then Family.generic
  else if hasPrefixCh modelLower "deepseek" then Family.generic
  else if hasPrefixCh modelLower "titan-" then Family.generic
  else Family.unknown

/-- Shared treatment of the seven non-gpt recognized families: the
cl100k_base encoding when the backend provides it, else the heuristic. -/
def genericTokenCount (enc : EncodingBackend) (text : String) : ℕ :=
  match enc.getEncoding "cl100k_base" with
  | some e => e text
  | none => fallbackTokenCount text

/-- Cost of a usage event (client.go lines 521-541, func calculateCost):
look up the model in the table, fall back to defaultPricing when absent,
and combine the two linear per-1000-token terms. The error slot of the Go
signature is carried in the result and is never populated. -/
def calculateCost (s : ProcState) (model : String) (usageData : UsageData) :
    ProcState × Except String ℚ :=
  let pricing :=
    match s.pricing.lookup model with
    | some p => p
    | none => defaultPricing
  let promptCost := (usageData.promptTokens : ℚ) / 1000 * pricing.promptTokensCost
  let completionCost := (usageData.completionTokens : ℚ) / 1000 * pricing.completionTokensCost
  (s, Except.ok (promptCost + completionCost))

/-- Cost of a text-based usage event (client.go lines 660-684,
func calculateCostFromStrings): pricing is keyed by the model parameter,
token counts are derived from the model field of the usage value. -/
def calculateCostFromStrings (s : ProcState) (enc : EncodingBackend) (model : String)
    (usageData : UsageDataWithStrings) : ProcState × Except String ℚ :=
  let pricing :=
    match s.pricing.lookup model with
    | some p => p
    | none => defaultPricing
  let r1 := getTokenCount s enc usageData.model usageData.promptString
  let r2 := getTokenCount r1.1 enc usageData.model usageData.outputString
  let promptCost := (r1.2 : ℚ) / 1000 * pricing.promptTokensCost
  let completionCost := (r2.2 : ℚ) / 1000 * pricing.completionTokensCost
  (r2.1, Except.ok (promptCost + completionCost))

/-- Outcome of one POST of the outbound record: either a connection-level
failure (request construction, connection, or body read) or a response
carrying a status code and body. -/
inductive TransportResult where
  | transportError (message : String)
  | response (status : ℕ) (body : String)
deriving DecidableEq

/-- Response handling shared verbatim by both report functions
(client.go lines 736-762 and 818-844): connection-level failures and
non-2xx statuses become errors carrying the detail, 2xx is silent success. -/
def handleResponse : TransportResult → Except String Unit
  | TransportResult.transportError e => Except.error ("HTTP request failed: " ++ e)
  | TransportResult.response status body =>
    if 200 ≤ status && status < 300 then Except.ok ()
    else Except.error ("API request failed with status " ++ toString status ++ ": " ++ body)

/-- Count-based report (client.go lines 687-762, func SendUsage): compute
the cost, build the outbound record, submit it, and surface the submission
outcome. -/
def SendUsage (s : ProcState) (agentID customerID indicator : String)
    (usageData : UsageData) (transport : APIRequest → TransportResult) :
    ProcState × Except String Unit :=
  match calculateCost s usageData.model usageData with
  | (s1, Except.error e) => (s1, Except.error ("failed to calculate cost: " ++ e))
  | (s1, Except.ok cost) =>
    let apiRequest : APIRequest :=
      { agentID := agentID, customerID := customerID, indicator := indicator,
        amount := cost, inputToken := usageData.promptTokens,
        outputToken := usageData.completionTokens, model := usageData.model,
        serviceProvider := usageData.serviceProvider }
    (s1, handleResponse (transport apiRequest))

/-- Text-based report (client.go lines 765-844, func SendUsageWithTokenString):
compute the cost from the strings, recount the tokens, build the outbound
record, submit it, and surface the submission outcome. -/
def SendUsageWithTokenString (s : ProcState) (enc : EncodingBackend)
    (agentID customerID indicator : String) (usageData : UsageDataWithStrings)
    (transport : APIRequest → TransportResult) : ProcState × Except String Unit :=
  match calculateCostFromStrings s enc usageData.model usageData with
  | (s1, Except.error e) => (s1, Except.error ("failed to calculate cost from strings: " ++ e))
  | (s1, Except.ok cost) =>
    let r1 := getTokenCount s1 enc usageData.model usageData.promptString
    let r2 := getTokenCount r1.1 enc usageData.model usageData.outputString
    let apiRequest : APIRequest :=
      { agentID := agentID, customerID := customerID, indicator := indicator,
        amount := cost, inputToken := (r1.2 : ℤ), outputToken := (r2.2 : ℤ),
        model := usageData.model, serviceProvider := usageData.serviceProvider }
    (r2.1, handleResponse (transport apiRequest))

/-- Logger threshold update (client.go lines 846-849, func SetLogLevel). -/
def SetLogLevel (s : ProcState) (level : ℕ) : ProcState :=
  { s with logLevel := level }

/-- The cost value calculateCost produces, as a plain rational: the table
entry for the model, or defaultPricing when absent, combined linearly. -/
def costValue (table : List (String × ModelPricing)) (model : String)
    (promptTokens completionTokens : ℤ) : ℚ :=
  let pricing := (table.lookup model).getD defaultPricing
  (promptTokens : ℚ) / 1000 * pricing.promptTokensCost +
    (completionTokens : ℚ) / 1000 * pricing.completionTokensCost

/-- The outbound record SendUsage hands to the transport. -/
def sendUsageRequest (s : ProcState) (agentID customerID indicator : String)
    (u : UsageData) : APIRequest :=
  { agentID := agentID, customerID := customerID, indicator := indicator,
    amount := costValue s.pricing u.model u.promptTokens u.completionTokens,
    inputToken := u.promptTokens, outputToken := u.completionTokens,
    model := u.model, serviceProvider := u.serviceProvider }

/-- The outbound record SendUsageWithTokenString hands to the transport. -/
def sendUsageWithTokenStringRequest (s : ProcState) (enc : EncodingBackend)
    (agentID customerID indicator : String) (u : UsageDataWithStrings) : APIRequest :=
  { agentID := agentID, customerID := customerID, indicator := indicator,
    amount := costValue s.pricing u.model
      ((getTokenCount s enc u.model u.promptString).2 : ℤ)
      ((getTokenCount s enc u.model u.outputString).2 : ℤ),
    inputToken := ((getTokenCount s enc u.model u.promptString).2 : ℤ),
    outputToken := ((getTokenCount s enc u.model u.outputString).2 : ℤ),
    model := u.model, serviceProvider := u.serviceProvider }

/-- Boolean 2xx test on a transport outcome, matching the status check of
the source. -/
def is2xx : TransportResult → Bool
  | TransportResult.transportError _ => false
  | TransportResult.response status _ => 200 ≤ status && status < 300

/-- A backend with no encodings available, used to instantiate theorems at
concrete inputs. -/
def noEncodings : EncodingBackend := ⟨fun _ => none, fun _ => none⟩

/-- A successful association-list lookup locates an entry of the list. -/
theorem lookup_mem {α β : Type} [BEq α] [LawfulBEq α] {l : List (α × β)} {k : α} {v : β}
    (h : l.lookup k = some v) : (k, v) ∈ l := by
  induction l with
  | nil => simp [List.lookup] at h
  | cons p t ih =>
    rcases p with ⟨a, b⟩
    rw [List.lookup] at h
    cases hk : k == a with
    | true =>
      rw [hk] at h
      injection h with hbv
      have hka : k = a := eq_of_beq hk
      subst hka
      subst hbv
      exact List.mem_cons_self _ _
    | false =>
      rw [hk] at h
      exact List.mem_cons_of_mem _ (ih h)

/-- Every entry of the pricing table has positive prompt and completion
costs. -/
theorem allPricingPos : ∀ p ∈ modelPricing,
    0 < p.2.promptTokensCost ∧ 0 < p.2.completionTokensCost := by
  intro p hp
  fin_cases hp <;> exact ⟨by norm_num, by norm_num⟩

/-- The pricing entry calculateCost selects for any model, table entry or
default, has positive prompt and completion costs. -/
theorem pricingEntryPos (model : String) :
    0 < ((modelPricing.lookup model).getD defaultPricing).promptTokensCost ∧
      0 < ((modelPricing.lookup model).getD defaultPricing).completionTokensCost := by
  cases h : modelPricing.lookup model with
  | none => exact ⟨by norm_num [defaultPricing], by norm_num [defaultPricing]⟩
  | some e => simpa using allPricingPos (model, e) (lookup_mem h)

/-- The truncated 1.3-per-word estimate as integer arithmetic. -/
theorem floorMul13 (w : ℕ) : Nat.floor ((w : ℚ) * 1.3) = 13 * w / 10 := by
  have h1 : ((w : ℚ) * 1.3) = ((13 * w : ℕ) : ℚ) / ((10 : ℕ) : ℚ) := by
    push_cast
    norm_num
    ring
  rw [h1, Nat.floor_div_nat, Nat.floor_natCast]

/-- Token counting never changes process state. -/
theorem getTokenCount_fst (s : ProcState) (enc : EncodingBackend) (model text : String) :
    (getTokenCount s enc model text).1 = s := rfl

/-- The branch ladder of getTokenCount, read through the classify function:
gpt models use the dedicated encoding with generic recovery, the seven
generic families use the shared cl100k_base treatment, and unknown models
use the heuristic. -/
theorem getTokenCount_classified (s : ProcState) (enc : EncodingBackend) (model text : String) :
    (getTokenCount s enc model text).2 =
      if text.data.isEmpty then 0
      else
        match classify model with
        | Family.gpt =>
          match enc.encodingForModel model with
          | some e => e text
          | none => genericTokenCount enc text
        | Family.generic => genericTokenCount enc text
        | Family.unknown => fallbackTokenCount text := by
  simp only [getTokenCount, classify, genericTokenCount]
  split_ifs <;> rfl

/-- calculateCost leaves the state alone and always succeeds with the
costValue of the model and counts. -/
theorem calculateCost_eq (s : ProcState) (model : String) (u : UsageData) :
    calculateCost s model u =
      (s, Except.ok (costValue s.pricing model u.promptTokens u.completionTokens)) := by
  cases h : s.pricing.lookup model <;>
    simp [calculateCost, costValue, h]

/-- calculateCostFromStrings leaves the state alone and always succeeds with
the costValue of the model and the two derived counts. -/
theorem calculateCostFromStrings_eq (s : ProcState) (enc : EncodingBackend) (model : String)
    (u : UsageDataWithStrings) :
    calculateCostFromStrings s enc model u =
      (s, Except.ok (costValue s.pricing model
        ((getTokenCount s enc u.model u.promptString).2 : ℤ)
        ((getTokenCount s enc u.model u.outputString).2 : ℤ))) := by
  cases h : s.pricing.lookup model <;>
    simp [calculateCostFromStrings, costValue, h, getTokenCount_fst]

/-- SendUsage submits exactly the sendUsageRequest record and returns the
handled transport outcome, leaving the state alone. -/
theorem sendUsage_eq (s : ProcState) (agentID customerID indicator : String)
    (u : UsageData) (transport : APIRequest → TransportResult) :
    SendUsage s agentID customerID indicator u transport =
      (s, handleResponse (transport (sendUsageRequest s agentID customerID indicator u))) := by
  rw [SendUsage, calculateCost_eq]
  rfl

/-- SendUsageWithTokenString submits exactly the
sendUsageWithTokenStringRequest record and returns the handled transport
outcome, leaving the state alone. -/
theorem sendUsageWithTokenString_eq (s : ProcState) (enc : EncodingBackend)
    (agentID customerID indicator : String) (u : UsageDataWithStrings)
    (transport : APIRequest → TransportResult) :
    SendUsageWithTokenString s enc agentID customerID indicator u transport =
      (s, handleResponse
        (transport (sendUsageWithTokenStringRequest s enc agentID customerID indicator u))) := by
  rw [SendUsageWithTokenString, calculateCostFromStrings_eq]
  rfl

/-- handleResponse yields silent success exactly on a 2xx response. -/
theorem handleResponse_ok_iff (r : TransportResult) :
    handleResponse r = Except.ok () ↔ is2xx r = true := by
  cases r with
  | transportError e => simp [handleResponse, is2xx]
  | response status body =>
    by_cases h : (200 ≤ status && status < 300) = true <;>
      simp [handleResponse, is2xx, h]

/-- handleResponse on a connection-level failure carries the detail. -/
theorem handleResponse_transportError (e : String) :
    handleResponse (TransportResult.transportError e) =
      Except.error ("HTTP request failed: " ++ e) := rfl

/-- handleResponse on a non-2xx response carries status and body. -/
theorem handleResponse_non2xx (status : ℕ) (body : String)
    (h : ¬(200 ≤ status ∧ status < 300)) :
    handleResponse (TransportResult.response status body) =
      Except.error ("API request failed with status " ++ toString status ++ ": " ++ body) := by
  have hb : (200 ≤ status && status < 300) = false := by
    rw [Bool.and_eq_false_iff]
    rcases not_and_or.mp h with h1 | h1
    · exact Or.inl (by simpa using h1)
    · exact Or.inr (by simpa using h1)
  simp [handleResponse, hb]

/-- C1: for every model identifier present in the price table and all
non-negative token counts, calculateCost returns exactly
promptTokens/1000 times the prompt cost of the entry of the table plus
completionTokens/1000 times its completion cost, with no rounding. -/
theorem claim_C1 (model : String) (u : UsageData) (entry : ModelPricing)
    (hlook : modelPricing.lookup model = some entry)
    (hp : 0 ≤ u.promptTokens) (hc : 0 ≤ u.completionTokens) :
    (calculateCost initState model u).2 =
      Except.ok ((u.promptTokens : ℚ) / 1000 * entry.promptTokensCost +
        (u.completionTokens : ℚ) / 1000 * entry.completionTokensCost) := by
  have h : initState.pricing.lookup model = some entry := hlook
  simp [calculateCost, h]

/-- Witness for C1 at the first table entry with 1000 prompt and 500
completion tokens. -/
theorem claim_C1_witness :
    modelPricing.lookup "gpt-5" = some ⟨0.00125, 0.01⟩ ∧
    (0 : ℤ) ≤ 1000 ∧ (0 : ℤ) ≤ 500 ∧
    (calculateCost initState "gpt-5" ⟨"OpenAI", "gpt-5", 1000, 500, 1500⟩).2 =
      Except.ok ((((1000 : ℤ) : ℚ)) / 1000 * (0.00125 : ℚ) +
        (((500 : ℤ) : ℚ)) / 1000 * (0.01 : ℚ)) :=
  ⟨rfl, by decide, by decide,
    claim_C1 "gpt-5" ⟨"OpenAI", "gpt-5", 1000, 500, 1500⟩ ⟨0.00125, 0.01⟩ rfl
      (by decide) (by decide)⟩

/-- C2: for every model identifier absent from the price table and all
non-negative token counts, calculateCost succeeds (the error slot is never
populated) and returns (p + c)/1000 times 0.10, the substituted default. -/
theorem claim_C2 (model : String) (u : UsageData)
    (hlook : modelPricing.lookup model = none)
    (hp : 0 ≤ u.promptTokens) (hc : 0 ≤ u.completionTokens) :
    (calculateCost initState model u).2 =
      Except.ok (((u.promptTokens : ℚ) + (u.completionTokens : ℚ)) / 1000 * 0.10) := by
  have h : initState.pricing.lookup model = none := hlook
  simp only [calculateCost, h, defaultPricing]
  congr 1
  norm_num
  ring

/-- Witness for C2 at an identifier absent from the table with 1000 prompt
and 500 completion tokens. -/
theorem claim_C2_witness :
    modelPricing.lookup "unknown-model" = none ∧
    (0 : ℤ) ≤ 1000 ∧ (0 : ℤ) ≤ 500 ∧
    (calculateCost initState "unknown-model" ⟨"X", "unknown-model", 1000, 500, 1500⟩).2 =
      Except.ok (((((1000 : ℤ) : ℚ)) + (((500 : ℤ) : ℚ))) / 1000 * 0.10) :=
  ⟨rfl, by decide, by decide,
    claim_C2 "unknown-model" ⟨"X", "unknown-model", 1000, 500, 1500⟩ rfl
      (by decide) (by decide)⟩

/-- C3: a text-based report submits a record whose inputToken and
outputToken are exactly the token counts derived from the promptString and
outputString under the model field of the usage value, and whose amount is
exactly what the cost calculator returns on those two derived counts for
that same model identifier. -/
theorem claim_C3 (s : ProcState) (enc : EncodingBackend)
    (agentID customerID indicator : String) (u : UsageDataWithStrings)
    (transport : APIRequest → TransportResult) :
    (sendUsageWithTokenStringRequest s enc agentID customerID indicator u).inputToken =
      ((getTokenCount s enc u.model u.promptString).2 : ℤ) ∧
    (sendUsageWithTokenStringRequest s enc agentID customerID indicator u).outputToken =
      ((getTokenCount s enc u.model u.outputString).2 : ℤ) ∧
    (calculateCost s u.model
        ⟨u.serviceProvider, u.model, ((getTokenCount s enc u.model u.promptString).2 : ℤ),
          ((getTokenCount s enc u.model u.outputString).2 : ℤ), 0⟩).2 =
      Except.ok ((sendUsageWithTokenStringRequest s enc agentID customerID indicator u).amount) ∧
    SendUsageWithTokenString s enc agentID customerID indicator u transport =
      (s, handleResponse
        (transport (sendUsageWithTokenStringRequest s enc agentID customerID indicator u))) := by
  refine ⟨rfl, rfl, ?_, sendUsageWithTokenString_eq s enc agentID customerID indicator u transport⟩
  rw [calculateCost_eq]
  rfl

/-- C4: token counting of empty text is 0 for every model and every
encoding backend. -/
theorem claim_C4 (s : ProcState) (enc : EncodingBackend) (model : String) :
    (getTokenCount s enc model "").2 = 0 := rfl

/-- C8: no operation of the client writes the pricing table; each leaves
the table of the incoming state intact. -/
theorem claim_C8 (s : ProcState) (enc : EncodingBackend) (model text : String)
    (u : UsageData) (uw : UsageDataWithStrings) (agentID customerID indicator : String)
    (tr trs : APIRequest → TransportResult) (level : ℕ) :
    (calculateCost s model u).1.pricing = s.pricing ∧
    (getTokenCount s enc model text).1.pricing = s.pricing ∧
    (calculateCostFromStrings s enc model uw).1.pricing = s.pricing ∧
    (SendUsage s agentID customerID indicator u tr).1.pricing = s.pricing ∧
    (SendUsageWithTokenString s enc agentID customerID indicator uw trs).1.pricing = s.pricing ∧
    (SetLogLevel s level).pricing = s.pricing :=
  ⟨rfl, rfl, rfl, rfl, rfl, rfl⟩

/-- C9: the totalTokens field of count-based usage input is never read:
two SendUsage invocations differing only there build the same outbound
record, compute the same cost, and have the same outcome. -/
theorem claim_C9 (s : ProcState) (agentID customerID indicator : String) (u : UsageData)
    (t1 t2 : ℤ) (tr : APIRequest → TransportResult) :
    sendUsageRequest s agentID customerID indicator { u with totalTokens := t1 } =
      sendUsageRequest s agentID customerID indicator { u with totalTokens := t2 } ∧
    (calculateCost s u.model { u with totalTokens := t1 }).2 =
      (calculateCost s u.model { u with totalTokens := t2 }).2 ∧
    SendUsage s agentID customerID indicator { u with totalTokens := t1 } tr =
      SendUsage s agentID customerID indicator { u with totalTokens := t2 } tr :=
  ⟨rfl, rfl, rfl⟩

/-- C5: for every model identifier outside all recognized family buckets
and every non-empty text, the token count is max(1, floor(wordCount times
1.3)) for every encoding backend; in particular a non-empty text with zero
words counts as 1. -/
theorem claim_C5 (s : ProcState) (enc : EncodingBackend) (model text : String)
    (hfam : classify model = Family.unknown) (htext : text.data.isEmpty = false) :
    (getTokenCount s enc model text).2 =
      max 1 (Nat.floor ((wordCount text : ℚ) * 1.3)) := by
  simp only [getTokenCount_classified, htext, hfam, Bool.false_eq_true, if_false]
  unfold fallbackTokenCount
  by_cases hw : wordCount text = 0
  · simp only [hw, if_true, Nat.cast_zero, zero_mul, Nat.floor_zero]
    decide
  · have h1 : 1 ≤ Nat.floor ((wordCount text : ℚ) * 1.3) := by
      rw [floorMul13]
      omega
    simp only [hw, if_false]
    exact (max_eq_right h1).symm

/-- Witness for C5 at an unrecognized model and a two-word text. -/
theorem claim_C5_witness :
    classify "foo-model" = Family.unknown ∧
    ("hello world".data.isEmpty = false) ∧
    (getTokenCount initState noEncodings "foo-model" "hello world").2 = 2 := by
  refine ⟨by decide, by decide, ?_⟩
  have h := claim_C5 initState noEncodings "foo-model" "hello world" (by decide) (by decide)
  rw [h, show wordCount "hello world" = 2 from rfl, floorMul13]
  rfl

/-- C6: any two model identifiers from the seven recognized non-GPT family
buckets get the same token count on every text under every encoding
backend, because the seven branches use the identical generic treatment. -/
theorem claim_C6 (s : ProcState) (enc : EncodingBackend) (m1 m2 text : String)
    (h1 : classify m1 = Family.generic) (h2 : classify m2 = Family.generic) :
    (getTokenCount s enc m1 text).2 = (getTokenCount s enc m2 text).2 := by
  rw [getTokenCount_classified, getTokenCount_classified, h1, h2]

/-- Witness for C6 at a Claude-style and a Titan-style identifier. -/
theorem claim_C6_witness :
    classify "claude-3-opus" = Family.generic ∧
    classify "titan-text-express" = Family.generic ∧
    (getTokenCount initState noEncodings "claude-3-opus" "hello world").2 =
      (getTokenCount initState noEncodings "titan-text-express" "hello world").2 :=
  ⟨by decide, by decide,
    claim_C6 initState noEncodings "claude-3-opus" "titan-text-express" "hello world"
      (by decide) (by decide)⟩

/-- C7: both report functions return silent success exactly when the
transport outcome for the submitted record is a 2xx response; a
connection-level failure or a non-2xx status surfaces as an error carrying
the available detail. -/
theorem claim_C7 (s : ProcState) (enc : EncodingBackend)
    (agentID customerID indicator : String) (u : UsageData) (uw : UsageDataWithStrings)
    (tr trs : APIRequest → TransportResult) :
    ((SendUsage s agentID customerID indicator u tr).2 = Except.ok () ↔
      is2xx (tr (sendUsageRequest s agentID customerID indicator u)) = true) ∧
    (∀ e, tr (sendUsageRequest s agentID customerID indicator u) =
        TransportResult.transportError e →
      (SendUsage s agentID customerID indicator u tr).2 =
        Except.error ("HTTP request failed: " ++ e)) ∧
    (∀ status body, tr (sendUsageRequest s agentID customerID indicator u) =
        TransportResult.response status body → ¬(200 ≤ status ∧ status < 300) →
      (SendUsage s agentID customerID indicator u tr).2 =
        Except.error ("API request failed with status " ++ toString status ++ ": " ++ body)) ∧
    ((SendUsageWithTokenString s enc agentID customerID indicator uw trs).2 = Except.ok () ↔
      is2xx (trs (sendUsageWithTokenStringRequest s enc agentID customerID indicator uw)) = true) ∧
    (∀ e, trs (sendUsageWithTokenStringRequest s enc agentID customerID indicator uw) =
        TransportResult.transportError e →
      (SendUsageWithTokenString s enc agentID customerID indicator uw trs).2 =
        Except.error ("HTTP request failed: " ++ e)) ∧
    (∀ status body, trs (sendUsageWithTokenStringRequest s enc agentID customerID indicator uw) =
        TransportResult.response status body → ¬(200 ≤ status ∧ status < 300) →
      (SendUsageWithTokenString s enc agentID customerID indicator uw trs).2 =
        Except.error ("API request failed with status " ++ toString status ++ ": " ++ body)) := by
  rw [sendUsage_eq, sendUsageWithTokenString_eq]
  refine ⟨handleResponse_ok_iff _, ?_, ?_, handleResponse_ok_iff _, ?_, ?_⟩
  · intro e he
    rw [he]
    rfl
  · intro status body hresp hst
    rw [hresp]
    exact handleResponse_non2xx status body hst
  · intro e he
    rw [he]
    rfl
  · intro status body hresp hst
    rw [hresp]
    exact handleResponse_non2xx status body hst

/-- Witness for C7: an HTTP 401 response surfaces as an unauthorized
failure carrying status and body. -/
theorem claim_C7_witness :
    (SendUsage initState "agent" "customer" "indicator"
        ⟨"OpenAI", "gpt-5", 1000, 500, 1500⟩
        (fun _ => TransportResult.response 401 "unauthorized")).2 =
      Except.error ("API request failed with status " ++ toString (401 : ℕ) ++
        ": " ++ "unauthorized") :=
  (claim_C7 initState noEncodings "agent" "customer" "indicator"
      ⟨"OpenAI", "gpt-5", 1000, 500, 1500⟩ ⟨"OpenAI", "gpt-5", "p", "o"⟩
      (fun _ => TransportResult.response 401 "unauthorized")
      (fun _ => TransportResult.response 200 "ok")).2.2.1 401 "unauthorized" rfl (by decide)

/-- C10: calculateCost validates nothing: with both token counts negative
the returned amount is negative for every model, computed by the same
linear formula, and SendUsage carries that amount into the outbound
record. -/
theorem claim_C10 (u : UsageData) (hp : u.promptTokens < 0) (hc : u.completionTokens < 0) :
    (calculateCost initState u.model u).2 =
      Except.ok (costValue modelPricing u.model u.promptTokens u.completionTokens) ∧
    costValue modelPricing u.model u.promptTokens u.completionTokens < 0 ∧
    (∀ agentID customerID indicator transport,
      SendUsage initState agentID customerID indicator u transport =
        (initState,
          handleResponse (transport (sendUsageRequest initState agentID customerID indicator u)))) ∧
    (∀ agentID customerID indicator,
      (sendUsageRequest initState agentID customerID indicator u).amount =
        costValue modelPricing u.model u.promptTokens u.completionTokens) := by
  refine ⟨by rw [calculateCost_eq]; rfl, ?_,
    fun agentID customerID indicator transport =>
      sendUsage_eq initState agentID customerID indicator u transport,
    fun agentID customerID indicator => rfl⟩
  obtain ⟨hpc, hcc⟩ := pricingEntryPos u.model
  simp only [costValue]
  have hp' : (u.promptTokens : ℚ) < 0 := by exact_mod_cast hp
  have hc' : (u.completionTokens : ℚ) < 0 := by exact_mod_cast hc
  have t1 : (u.promptTokens : ℚ) / 1000 *
      ((modelPricing.lookup u.model).getD defaultPricing).promptTokensCost < 0 :=
    mul_neg_of_neg_of_pos (div_neg_of_neg_of_pos hp' (by norm_num)) hpc
  have t2 : (u.completionTokens : ℚ) / 1000 *
      ((modelPricing.lookup u.model).getD defaultPricing).completionTokensCost < 0 :=
    mul_neg_of_neg_of_pos (div_neg_of_neg_of_pos hc' (by norm_num)) hcc
  linarith

/-- Witness for C10 at an unrecognized model with both counts equal to -1. -/
theorem claim_C10_witness :
    ((-1 : ℤ) < 0) ∧
    ((calculateCost initState "unknown-model" ⟨"X", "unknown-model", -1, -1, 0⟩).2 =
        Except.ok (costValue modelPricing "unknown-model" (-1) (-1)) ∧
      costValue modelPricing "unknown-model" (-1) (-1) < 0 ∧
      (∀ agentID customerID indicator transport,
        SendUsage initState agentID customerID indicator
            ⟨"X", "unknown-model", -1, -1, 0⟩ transport =
          (initState,
            handleResponse (transport (sendUsageRequest initState agentID customerID indicator
              ⟨"X", "unknown-model", -1, -1, 0⟩)))) ∧
      (∀ agentID customerID indicator,
        (sendUsageRequest initState agentID customerID indicator
            ⟨"X", "unknown-model", -1, -1, 0⟩).amount =
          costValue modelPricing "unknown-model" (-1) (-1))) :=
  ⟨by decide, claim_C10 ⟨"X", "unknown-model", -1, -1, 0⟩ (by decide) (by decide)⟩

end Paygent
